import Mathlib

/-!
Verification of the XrayR dispatcher and controller core.

This file gives a shallow embedding of the code in
`app/mydispatcher/default.go` (cachedReader, the sniff loop, getLink,
Dispatch, routedDispatch) and of the controller (`Start`/`Close`,
`nodeInfoMonitor`, `compareUserList`) together with the api data model
(`api/apimodel.go`), and proves the stated properties about them.

Byte streams are modelled as `List Nat`; a chunked reader is a list of
chunks.  Go maps are modelled as insertion-ordered key lists; the
theorems below only depend on key membership, which is independent of
the (unspecified) Go map iteration order.  External collaborators
(limiter, rule manager, router, outbound manager, policy/stats, remote
API) are oracles supplied as explicit function-valued environment
fields, exactly at the granularity the dispatcher / controller code
consults them.
-/

namespace XrayR

/-- Size of a scratch buffer (xray-core `buf.Size` = 8192). -/
def bufSize : Nat := 8192

/-- State of `cachedReader` (default.go lines 34-38): the internal cache
`cache` (merged MultiBuffer contents) and the pending chunks of the
underlying pipe reader. -/
structure CachedReader where
  cache : List Nat
  upstream : List (List Nat)
deriving DecidableEq

/-- `cachedReader.Cache` (default.go lines 40-51): `ReadMultiBufferTimeout`
pulls at most the next pending chunk (nothing when the 100ms timeout
fires, modelled by `timedOut`), merges it into the cache, then the
scratch is cleared, extended to `buf.Size` and filled by `cache.Copy`,
i.e. it receives the first `min (cache length) bufSize` bytes of the
cache.  Returns the new reader state and the scratch contents. -/
def CachedReader.Cache (r : CachedReader) (timedOut : Bool) :
    CachedReader × List Nat :=
  let pulled : List Nat × List (List Nat) :=
    if timedOut then ([], r.upstream)
    else
      match r.upstream with
      | [] => ([], [])
      | c :: rest => (c, rest)
  let cache' := r.cache ++ pulled.1
  (⟨cache', pulled.2⟩, cache'.take bufSize)

/-- `cachedReader.readInternal` (default.go lines 53-64): if the cache is
non-empty, return all of it and nil the cache; otherwise return nothing. -/
def CachedReader.readInternal (r : CachedReader) :
    CachedReader × Option (List Nat) :=
  if r.cache.isEmpty then (r, none)
  else (⟨[], r.upstream⟩, some r.cache)

/-- `cachedReader.ReadMultiBuffer` (default.go lines 66-73): drain the
cache via `readInternal` if possible, otherwise read from the
underlying pipe reader (modelled as taking the next pending chunk;
`none` is end of stream). -/
def CachedReader.ReadMultiBuffer (r : CachedReader) :
    CachedReader × Option (List Nat) :=
  match r.readInternal with
  | (r', some mb) => (r', some mb)
  | (_, none) =>
    match r.upstream with
    | [] => (r, none)
    | c :: rest => (⟨r.cache, rest⟩, some c)

/-- Repeatedly call `ReadMultiBuffer`, collecting the returned chunks,
for at most `fuel` reads. -/
def CachedReader.drainLoop : Nat → CachedReader → List (List Nat)
  | 0, _ => []
  | fuel + 1, r =>
    match r.ReadMultiBuffer with
    | (r', some mb) => mb :: drainLoop fuel r'
    | (_, none) => []

/-- All chunks returned by repeatedly calling `ReadMultiBuffer` until the
stream is exhausted: the whole cache first (single-shot) when non-empty,
then the remaining upstream chunks in order.  One read drains the cache
without touching the upstream and every other read consumes one upstream
chunk, so `upstream.length + 1` reads always exhaust the stream. -/
def CachedReader.drainReads (r : CachedReader) : List (List Nat) :=
  r.drainLoop (r.upstream.length + 1)

/-- Run a sequence of `Cache` calls (one Bool per call: did the 100ms
timeout fire); returns the final reader state and each call's observed
scratch contents. -/
def CachedReader.cacheRun : CachedReader → List Bool →
    CachedReader × List (List Nat)
  | r, [] => (r, [])
  | r, t :: ts =>
    let step := r.Cache t
    let rest := cacheRun step.1 ts
    (rest.1, step.2 :: rest.2)

/-- Concatenation of a list of chunks into one byte sequence. -/
def concatChunks : List (List Nat) → List Nat
  | [] => []
  | c :: rest => c ++ concatChunks rest

/-- A successful sniff result: protocol name and extracted domain. -/
structure SniffResult where
  protocol : String
  domain : String
deriving DecidableEq

/-- Modelled from the spec: the verdict of the aggregate `Sniffer.Sniff`
built by `NewSniffer` (sniffer.go, which is not under src/).  Per the
spec's Sniffer contract the statuses are ok (result with protocol and
host/SNI), no-clue (every classifier abstains on this payload) and
unknown-content; need-more is a per-classifier sentinel which the
aggregate absorbs (the caller accumulates and retries via the next
`Cache` attempt of the sniff loop). -/
inductive SniffVerdict where
  | ok (r : SniffResult)
  | noClue
  | unknownContent
deriving DecidableEq

/-- The four ways the dispatcher's sniff loop (default.go lines 264-292)
can return: `(result, nil)`, `(nil, ctx.Err())`, `(nil,
errSniffingTimeout)` and `(nil, errUnknownContent)`. -/
inductive SniffOutcome where
  | result (r : SniffResult)
  | ctxErr
  | timeout
  | unknownContentErr
deriving DecidableEq

/-- Environment of one run of the sniff loop: whether `ctx.Done()` is
closed when iteration `i` checks it, whether the i-th `Cache` call's
100ms read timed out, and the sniffing verdict for the i-th attempt's
payload. -/
structure SniffEnv where
  done : Nat → Bool
  timedOut : Nat → Bool
  sniff : Nat → List Nat → SniffVerdict

/-- The sniff loop `sniffer` (default.go lines 264-292), started with
`totalAttempt = attempt`.  Each iteration first polls the context, then
increments the attempt counter, failing with the sniffing timeout once
it exceeds 2; otherwise it performs one `Cache` call and, if the scratch
is non-empty, one `Sniff` call, returning unless the verdict is no-clue;
a full scratch fails with unknown-content.  Returns the outcome together
with the number of `Cache` calls and the number of `Sniff` calls made. -/
def snifferLoop (e : SniffEnv) (r : CachedReader) (attempt : Nat) :
    SniffOutcome × Nat × Nat :=
  if e.done (attempt + 1) then (.ctxErr, 0, 0)
  else if _h2 : 2 < attempt + 1 then (.timeout, 0, 0)
  else
    let step := r.Cache (e.timedOut (attempt + 1))
    let payload := step.2
    if payload.isEmpty then
      if payload.length = bufSize then (.unknownContentErr, 1, 0)
      else
        let nxt := snifferLoop e step.1 (attempt + 1)
        (nxt.1, nxt.2.1 + 1, nxt.2.2)
    else
      match e.sniff (attempt + 1) payload with
      | .ok res => (.result res, 1, 1)
      | .unknownContent => (.unknownContentErr, 1, 1)
      | .noClue =>
        if payload.length = bufSize then (.unknownContentErr, 1, 1)
        else
          let nxt := snifferLoop e step.1 (attempt + 1)
          (nxt.1, nxt.2.1 + 1, nxt.2.2 + 1)
termination_by 3 - attempt
decreasing_by all_goals omega

/-- The `sniffer` function as called by `Dispatch`: the loop starting at
`totalAttempt = 0` with the given cached reader. -/
def sniffer (e : SniffEnv) (r : CachedReader) : SniffOutcome × Nat × Nat :=
  snifferLoop e r 0

/-- `protocol.MemoryUser` as far as the dispatcher reads it: email and
policy level. -/
structure MemoryUser where
  email : String
  level : Nat
deriving DecidableEq

/-- `session.Inbound` as far as the dispatcher reads it: tag, the
(possibly nil) user pointer, and the source IP string. -/
structure SessionInbound where
  tag : String
  user : Option MemoryUser
  sourceIP : String
deriving DecidableEq

/-- A link writer: one of the two raw pipe writers, possibly wrapped by
the limiter's rate writer and/or a `SizeStatWriter`. -/
inductive Writer where
  | uplinkPipe
  | downlinkPipe
  | rate (w : Writer)
  | sizeStat (counterName : String) (w : Writer)
deriving DecidableEq

/-- A link reader: one of the two raw pipe readers. -/
inductive Reader where
  | uplinkPipe
  | downlinkPipe
deriving DecidableEq

/-- `transport.Link`: a reader/writer pair. -/
structure Link where
  reader : Reader
  writer : Writer
deriving DecidableEq

/-- Which of the four pipe endpoints `getLink` tore down on device-limit
reject (default.go lines 163-169): `Close` on both link writers and
`Interrupt` on both link readers. -/
structure Teardown where
  outboundWriterClosed : Bool
  inboundWriterClosed : Bool
  outboundReaderInterrupted : Bool
  inboundReaderInterrupted : Bool
deriving DecidableEq

/-- Result of `Limiter.GetUserBucket` as consumed by `getLink`: the
`ok` flag (a bucket exists, wrap with the rate writer) and the `reject`
flag (device limit hit). -/
structure BucketResult where
  ok : Bool
  reject : Bool
deriving DecidableEq

/-- Environment of one `Dispatch` call: the inbound session from the
context, and the external collaborators exactly as the dispatcher
consults them (rule manager `Detect`, limiter `GetUserBucket`, policy
stats flags per user level, stats counter registration, and the
sniffing-relevant facts of the target/content). -/
structure DispatchEnv where
  sessionInbound : Option SessionInbound
  detect : String → String → String → Bool
  getUserBucket : String → String → String → BucketResult
  statsUserUplink : Nat → Bool
  statsUserDownlink : Nat → Bool
  counterRegistered : String → Bool
  networkTCP : Bool
  sniffingEnabled : Bool

/-- `getLink` (default.go lines 139-196): build the two pipe pairs,
`inboundLink = (downlinkReader, uplinkWriter)` and `outboundLink =
(uplinkReader, downlinkWriter)`; when the session carries a user with a
non-empty email, consult `GetUserBucket`: on `reject` close both link
writers and interrupt both link readers (the call does not return
early), on `ok` wrap both writers with the rate writer, then wrap with
`SizeStatWriter`s according to the user's policy.  Returns
`(inboundLink, outboundLink, teardown flags)`. -/
def getLink (e : DispatchEnv) : Link × Link × Teardown :=
  let inboundR : Reader := .downlinkPipe
  let inboundW : Writer := .uplinkPipe
  let outboundR : Reader := .uplinkPipe
  let outboundW : Writer := .downlinkPipe
  let noTeardown : Teardown := ⟨false, false, false, false⟩
  match e.sessionInbound with
  | none => (⟨inboundR, inboundW⟩, ⟨outboundR, outboundW⟩, noTeardown)
  | some si =>
    match si.user with
    | none => (⟨inboundR, inboundW⟩, ⟨outboundR, outboundW⟩, noTeardown)
    | some u =>
      if 0 < u.email.length then
        let br := e.getUserBucket si.tag u.email si.sourceIP
        let td : Teardown :=
          if br.reject then ⟨true, true, true, true⟩ else noTeardown
        let inW1 := if br.ok then Writer.rate inboundW else inboundW
        let outW1 := if br.ok then Writer.rate outboundW else outboundW
        let upName := "user>>>" ++ u.email ++ ">>>traffic>>>uplink"
        let inW2 :=
          if e.statsUserUplink u.level && e.counterRegistered upName then
            Writer.sizeStat upName inW1
          else inW1
        let downName := "user>>>" ++ u.email ++ ">>>traffic>>>downlink"
        let outW2 :=
          if e.statsUserDownlink u.level && e.counterRegistered downName then
            Writer.sizeStat downName outW1
          else outW1
        (⟨inboundR, inW2⟩, ⟨outboundR, outW2⟩, td)
      else (⟨inboundR, inboundW⟩, ⟨outboundR, outboundW⟩, noTeardown)

/-- Outcome of a `Dispatch` call (default.go lines 217-262):
`panicked` (invalid destination, or the nil-pointer dereference of
`sessionInbound`/`sessionInbound.User` on line 223), `rejectedByRule`
(returns `(nil, "destination is reject by rule")`, with no link pair
built and no background task launched), or `dispatched inbound outbound
td sniffTask` (returns `(inbound, nil)` to the caller and launches one
background task: the plain `routedDispatch` goroutine when `sniffTask =
false`, the sniff-then-route goroutine when `sniffTask = true`). -/
inductive DispatchOutcome where
  | panicked
  | rejectedByRule
  | dispatched (inbound outbound : Link) (td : Teardown) (sniffTask : Bool)
deriving DecidableEq

/-- `DefaultDispatcher.Dispatch` (default.go lines 217-262).  An invalid
destination panics.  `sessionInbound.Tag` and `sessionInbound.User.Email`
are dereferenced without nil checks while building the `Detect`
arguments, so a nil session or a nil user panics.  If `Detect` matches,
return the rejected-by-rule error; otherwise build the links with
`getLink` and launch the background task (with sniffing exactly when the
destination network is TCP and sniffing is enabled). -/
def Dispatch (e : DispatchEnv) (destValid : Bool) (dest : String) :
    DispatchOutcome :=
  if !destValid then .panicked
  else
    match e.sessionInbound with
    | none => .panicked
    | some si =>
      match si.user with
      | none => .panicked
      | some u =>
        if e.detect si.tag dest u.email then .rejectedByRule
        else
          let l := getLink e
          if !e.networkTCP || !e.sniffingEnabled then
            .dispatched l.1 l.2.1 l.2.2 false
          else
            .dispatched l.1 l.2.1 l.2.2 true

/-- An outbound handler, identified by its tag. -/
structure Handler where
  tag : String
deriving DecidableEq

/-- Environment of one `routedDispatch` call (default.go lines 294-351):
the content's `SkipRoutePick` flag, whether a router is configured, the
result of `router.PickRoute` (`some outTag` on success, `none` on
error), the outbound manager's handler lookup and default handler,
whether the context carries an access message, and the inbound tag. -/
structure RouteEnv where
  skipRoutePick : Bool
  routerPresent : Bool
  pickRoute : Option String
  getHandler : String → Option Handler
  defaultHandler : Option Handler
  accessMessage : Bool
  inTag : String

/-- Observable result of `routedDispatch`: the handler the link was
handed to (`none`: no handler existed), the recorded access-log `Detour`
string (`none`: no access message or empty handler tag), whether the
link was closed/interrupted for lack of a handler, and the final value
of the `isPickRoute` flag. -/
structure RouteResult where
  handler : Option Handler
  detour : Option String
  linkClosed : Bool
  isPickRoute : Bool
deriving DecidableEq

/-- `routedDispatch` (default.go lines 294-351).  When a router is
present and route picking is not skipped, a successful `PickRoute` sets
`isPickRoute = true` and looks the route's outbound tag up in the
outbound manager (a missing handler only logs; `isPickRoute` stays
true).  A still-missing handler falls back to the default handler, and
if none exists the link is closed and interrupted.  With an access
message and a non-empty handler tag, the `Detour` field is
`inTag + " -> " + tag` / `tag` when `isPickRoute`, else
`inTag + " >> " + tag` / `tag`. -/
def routedDispatch (e : RouteEnv) : RouteResult :=
  let picked : Option Handler × Bool :=
    if e.routerPresent && !e.skipRoutePick then
      match e.pickRoute with
      | some outTag => (e.getHandler outTag, true)
      | none => (none, false)
    else (none, false)
  let handler : Option Handler :=
    match picked.1 with
    | some h => some h
    | none => e.defaultHandler
  match handler with
  | none => ⟨none, none, true, picked.2⟩
  | some h =>
    let detour : Option String :=
      if e.accessMessage && !(h.tag = "") then
        some
          (if picked.2 then
            (if !(e.inTag = "") then e.inTag ++ " -> " ++ h.tag else h.tag)
          else
            (if !(e.inTag = "") then e.inTag ++ " >> " ++ h.tag else h.tag))
      else none
    ⟨some h, detour, false, picked.2⟩

/-- The detour string format of the access log, as a function of the
inbound tag, the dispatched handler's tag and whether a route pick
succeeded. -/
def detourString (inTag outTag : String) (picked : Bool) : String :=
  if !(inTag = "") then
    inTag ++ (if picked then " -> " else " >> ") ++ outTag
  else outTag

/-- `api.NodeInfo` (apimodel.go lines 21-33). -/
structure NodeInfo where
  nodeType : String
  nodeID : Int
  port : Int
  speedLimit : Nat
  alterID : Int
  transportProtocol : String
  host : String
  path : String
  enableTLS : Bool
  tlsType : String
  enableVless : Bool
deriving DecidableEq

/-- `api.UserInfo` (apimodel.go lines 35-49). -/
structure UserInfo where
  uid : Int
  emailTag : String
  email : String
  passwd : String
  port : Int
  method : String
  speedLimit : Nat
  deviceLimit : Int
  protocol : String
  protocolParam : String
  obfs : String
  obfsParam : String
  uuid : String
deriving DecidableEq

/-- Insert a key into a Go map modelled as an insertion-ordered key
list (`m[v] = b` adds the key only when absent). -/
def insertKey (m : List UserInfo) (v : UserInfo) : List UserInfo :=
  if v ∈ m then m else m ++ [v]

/-- Step 2 of `compareUserList` (part_000 lines 264-273): walk the new
list; keys already present in `mall` go to the `set` list (the
"intersection"), fresh keys are inserted into `mall` (making it the
union).  Returns the final `(mall, set)`. -/
def unionPass (mall inter : List UserInfo) :
    List UserInfo → List UserInfo × List UserInfo
  | [] => (mall, inter)
  | v :: rest =>
    if v ∈ mall then unionPass mall (inter ++ [v]) rest
    else unionPass (mall ++ [v]) inter rest

/-- `compareUserList` (part_000 lines 253-289): index the old list
(`msrc`), build the union of old and new (`mall`) while collecting the
intersection (`set`), delete the intersection from the union, and split
the remaining symmetric difference by membership in `msrc` into
`(deleted, added)`. -/
def compareUserList (old new : List UserInfo) :
    List UserInfo × List UserInfo :=
  let msrc := old.foldl insertKey []
  let mall := old.foldl insertKey []
  let p := unionPass mall [] new
  let mall2 := p.1.filter (fun v => !decide (v ∈ p.2))
  (mall2.filter (fun v => decide (v ∈ msrc)),
   mall2.filter (fun v => !decide (v ∈ msrc)))

/-- A sample user record ("a"). -/
def uA : UserInfo := ⟨1, "", "a", "", 0, "", 0, 0, "", "", "", "", ""⟩

/-- A sample user record ("b"). -/
def uB : UserInfo := ⟨2, "", "b", "", 0, "", 0, 0, "", "", "", "", ""⟩

/-- A sample user record ("c"). -/
def uC : UserInfo := ⟨3, "", "c", "", 0, "", 0, 0, "", "", "", "", ""⟩

/-- The inbound/outbound tag string `"{NodeType}_{Port}"`. -/
def nodeTag (n : NodeInfo) : String :=
  n.nodeType ++ "_" ++ toString n.port

/-- Insert a tag into a tag set modelled as a list (AddInboundLimiter
creates or replaces the inbound record for the tag). -/
def insertTag (l : List String) (t : String) : List String :=
  if t ∈ l then l else l ++ [t]

/-- The controller's local state named by the spec: the cached node
info, the cached user list, the set of inbound/outbound tags (an
inbound and an outbound with identical tag are created and destroyed
together, so one list models both), and the limiter's inbound tags. -/
structure ControllerState where
  nodeInfo : NodeInfo
  userList : List UserInfo
  tags : List String
  limiterInbounds : List String
deriving DecidableEq

/-- A sample node info record (V2ray on port 443). -/
def nodeA : NodeInfo := ⟨"V2ray", 1, 443, 0, 0, "tcp", "", "", false, "", false⟩

/-- A sample node info record differing from `nodeA` (port 80). -/
def nodeB : NodeInfo := { nodeA with port := 80 }

/-- The two remote API calls one `nodeInfoMonitor` tick makes, with
their results (`Except.error` models a failed call). -/
structure TickAPI where
  getNodeInfo : Except String NodeInfo
  getUserList : Except String (List UserInfo)

/-- `nodeInfoMonitor` (part_000 lines 104-192).  Fetch node info (on
error return it, state untouched).  If it differs from the cached one,
remove the old tag, add the new tag, replace the cached node info and
delete the old limiter inbound.  Cert renewal only logs and touches no
controller state.  Fetch the user list (on error log and return it).
If the node changed, add all users and the limiter inbound for the new
tag; otherwise diff with `compareUserList`, remove/add users (the
inbound's user set is outside this state), and on added users re-add
the limiter inbound.  Finally replace the cached user list.  The local
builder/registry operations (removeInbound, addInbound, ...) are
modelled as succeeding updates of the tag sets, since the claims below
only concern remote-API failures. -/
def nodeInfoMonitor (s : ControllerState) (api : TickAPI) :
    ControllerState × Option String :=
  match api.getNodeInfo with
  | .error e => (s, some e)
  | .ok newNodeInfo =>
    let changed : Bool := !decide (s.nodeInfo = newNodeInfo)
    let s1 :=
      if changed then
        let oldtag := nodeTag s.nodeInfo
        { s with
          tags := (s.tags.erase oldtag) ++ [nodeTag newNodeInfo]
          nodeInfo := newNodeInfo
          limiterInbounds := s.limiterInbounds.erase oldtag }
      else s
    match api.getUserList with
    | .error e => (s1, some e)
    | .ok newUserList =>
      if changed then
        let tag := nodeTag s1.nodeInfo
        ({ s1 with
            userList := newUserList
            limiterInbounds := insertTag s1.limiterInbounds tag }, none)
      else
        let da := compareUserList s1.userList newUserList
        let tag := nodeTag s1.nodeInfo
        let s2 :=
          if 0 < da.2.length then
            { s1 with limiterInbounds := insertTag s1.limiterInbounds tag }
          else s1
        ({ s2 with userList := newUserList }, none)

/-- The periodic-task fields of the controller at `Close` time: `none`
models a nil pointer; `some b` models an existing periodic whose
`Close()` returns an error exactly when `b` is true. -/
structure CloseEnv where
  nodePeriodic : Option Bool
  userPeriodic : Option Bool
deriving DecidableEq

/-- What `Controller.Close` did: which periodics got a `Close()` call
that completed, and whether the function panicked (`log.Panicf` on a
close error, or the nil-pointer dereference of a nil
`userReportPeriodic`).  When `panicked = false`, `Close` returned nil. -/
structure CloseResult where
  nodeClosed : Bool
  userClosed : Bool
  panicked : Bool
deriving DecidableEq

/-- `Controller.Close` (part_000 lines 87-102), as written: both guards
test `c.nodeInfoMonitorPeriodic != nil`; the second body closes
`c.userReportPeriodic`.  A close error is passed to `log.Panicf`, which
panics. -/
def controllerClose (e : CloseEnv) : CloseResult :=
  match e.nodePeriodic with
  | none => ⟨false, false, false⟩
  | some errNode =>
    if errNode then ⟨true, false, true⟩
    else
      match e.userPeriodic with
      | none => ⟨true, false, true⟩
      | some errUser =>
        if errUser then ⟨true, true, true⟩ else ⟨true, true, false⟩

/-! ### Lemmas about the cachedReader -/

theorem Cache_spec (r : CachedReader) (t : Bool) :
    (r.Cache t).2 = (r.Cache t).1.cache.take bufSize ∧
    ∃ mb, (r.Cache t).1.cache = r.cache ++ mb ∧
      mb ++ concatChunks (r.Cache t).1.upstream = concatChunks r.upstream := by
  unfold CachedReader.Cache
  cases t with
  | true => exact ⟨rfl, [], by simp, rfl⟩
  | false =>
    cases h : r.upstream with
    | nil => exact ⟨rfl, [], by simp, by simp [h, concatChunks]⟩
    | cons c rest =>
      exact ⟨by simp [h], c, by simp [h], by simp [h, concatChunks]⟩

theorem Cache_conserves (r : CachedReader) (t : Bool) :
    (r.Cache t).1.cache ++ concatChunks (r.Cache t).1.upstream =
      r.cache ++ concatChunks r.upstream := by
  obtain ⟨-, mb, hc, hu⟩ := Cache_spec r t
  rw [hc, List.append_assoc, hu]

theorem drainLoop_nilcache (n : Nat) :
    ∀ up : List (List Nat), up.length ≤ n →
      concatChunks (CachedReader.drainLoop n ⟨[], up⟩) = concatChunks up := by
  induction n with
  | zero =>
    intro up h
    rw [List.length_eq_zero.mp (Nat.le_zero.mp h)]
    rfl
  | succ n ih =>
    intro up h
    cases up with
    | nil => rfl
    | cons c rest =>
      simp only [CachedReader.drainLoop, CachedReader.ReadMultiBuffer,
        CachedReader.readInternal, List.isEmpty_nil, if_true, concatChunks]
      rw [ih rest (by simpa using h)]

theorem drainReads_concat (r : CachedReader) :
    concatChunks r.drainReads = r.cache ++ concatChunks r.upstream := by
  obtain ⟨cache, up⟩ := r
  cases cache with
  | nil =>
    simpa using drainLoop_nilcache (up.length + 1) up (Nat.le_succ _)
  | cons a l =>
    simp only [CachedReader.drainReads, CachedReader.drainLoop,
      CachedReader.ReadMultiBuffer, CachedReader.readInternal,
      List.isEmpty_cons, concatChunks]
    rw [drainLoop_nilcache up.length up (Nat.le_refl _)]

theorem cacheRun_spec (ts : List Bool) (r : CachedReader) :
    (r.cacheRun ts).1.cache ++ concatChunks (r.cacheRun ts).1.upstream =
      r.cache ++ concatChunks r.upstream ∧
    ∀ o ∈ (r.cacheRun ts).2, ∃ tl, o ++ tl = r.cache ++ concatChunks r.upstream := by
  induction ts generalizing r with
  | nil => exact ⟨rfl, by simp [CachedReader.cacheRun]⟩
  | cons t ts ih =>
    obtain ⟨ihc, iho⟩ := ih (r.Cache t).1
    have hcons := Cache_conserves r t
    constructor
    · simpa [CachedReader.cacheRun, hcons] using ihc
    · intro o ho
      simp only [CachedReader.cacheRun, List.mem_cons] at ho
      rcases ho with ho | ho
      · subst ho
        obtain ⟨hobs, mb, hc, -⟩ := Cache_spec r t
        refine ⟨(r.Cache t).1.cache.drop bufSize ++
          concatChunks (r.Cache t).1.upstream, ?_⟩
        rw [hobs, ← List.append_assoc, List.take_append_drop, hcons]
      · obtain ⟨tl, htl⟩ := iho o ho
        exact ⟨tl, by rw [htl, hcons]⟩

/-! ### Claim theorems: cachedReader (C5, C10) -/

/-- C5 (counterexample): the claim's round-trip equation fails on the
code.  With the underlying reader emitting S = [1], one `Cache` call
observes [1] and the subsequent `Read` calls return [1] again (the cache
is not consumed by `Cache`), so (what Cache observed) ++ (what Read
returns) = [1, 1] ≠ S. -/
theorem c5_cache_then_read_duplicates :
    concatChunks ((CachedReader.Cache ⟨[], [[1]]⟩ false).2 ::
        CachedReader.drainReads (CachedReader.Cache ⟨[], [[1]]⟩ false).1) =
      [1, 1] ∧
    concatChunks [[1]] = [1] ∧ ([1, 1] : List Nat) ≠ [1] := by
  refine ⟨by decide, by decide, by decide⟩

/-- C5 (amended): for every byte sequence S emitted by the underlying
reader and any sequence of `Cache` calls, the concatenation of what the
subsequent `Read` (`ReadMultiBuffer`) calls return equals S — `Cache`
observes without consuming, so each observed scratch is a prefix of S
and is delivered again by `Read`; no bytes are lost, duplicated or
reordered downstream. -/
theorem c5_read_round_trip (chunks : List (List Nat)) (ts : List Bool) :
    concatChunks
        (CachedReader.drainReads
          ((⟨[], chunks⟩ : CachedReader).cacheRun ts).1) =
      concatChunks chunks ∧
    ∀ o ∈ ((⟨[], chunks⟩ : CachedReader).cacheRun ts).2,
      ∃ tl, o ++ tl = concatChunks chunks := by
  obtain ⟨hc, ho⟩ := cacheRun_spec ts ⟨[], chunks⟩
  constructor
  · rw [drainReads_concat, hc]; rfl
  · intro o hmem
    simpa using ho o hmem

/-- C5 (witness for the amended claim): concrete run with S = [1, 2] and
one non-timed-out `Cache` call. -/
theorem c5_read_round_trip_witness :
    concatChunks
        (CachedReader.drainReads
          ((⟨[], [[1, 2]]⟩ : CachedReader).cacheRun [false]).1) =
      concatChunks [[1, 2]] ∧
    ∃ tl, [1, 2] ++ tl = concatChunks [[1, 2]] :=
  ⟨(c5_read_round_trip [[1, 2]] [false]).1,
   (c5_read_round_trip [[1, 2]] [false]).2 [1, 2] (by decide)⟩

/-- C10: each `Cache` call appends the newly arrived bytes to the
internal cache without consuming any cached bytes (the old cache is a
prefix of the new one, and the appended bytes are exactly what left the
upstream), and the scratch receives exactly the first
min(cache length, bufSize) bytes of the internal cache. -/
theorem c10_cache_appends_and_bounds (r : CachedReader) (t : Bool) :
    (∃ mb, (r.Cache t).1.cache = r.cache ++ mb ∧
      mb ++ concatChunks (r.Cache t).1.upstream = concatChunks r.upstream) ∧
    (r.Cache t).2 = (r.Cache t).1.cache.take bufSize ∧
    (r.Cache t).2.length = min (r.Cache t).1.cache.length bufSize := by
  obtain ⟨hobs, mb, hc, hu⟩ := Cache_spec r t
  refine ⟨⟨mb, hc, hu⟩, hobs, ?_⟩
  rw [hobs, List.length_take, Nat.min_comm]

/-! ### Claim theorems: controller Close (C8) and nil-user panic (C9) -/

/-- C8 (code bug): with `nodeInfoMonitorPeriodic = nil` and a live
`userReportPeriodic` whose `Close()` would succeed, `Controller.Close`
returns nil without ever closing the user-report periodic, because the
second guard re-checks `nodeInfoMonitorPeriodic`. -/
theorem c8_close_skips_user_periodic :
    controllerClose ⟨none, some false⟩ = ⟨false, false, false⟩ ∧
    (⟨none, some false⟩ : CloseEnv).userPeriodic.isSome = true :=
  ⟨rfl, rfl⟩

/-- C9 (code bug): a `Dispatch` call with a valid destination whose
inbound session carries no user (`sessionInbound.User = nil`) panics on
the `sessionInbound.User.Email` dereference instead of treating the
anonymous inbound as not rule-rejected. -/
theorem c9_nil_user_dereference_panics :
    Dispatch
        ⟨some ⟨"V2ray_443", none, "1.2.3.4"⟩, fun _ _ _ => false,
          fun _ _ _ => ⟨false, false⟩, fun _ => false, fun _ => false,
          fun _ => false, true, true⟩ true "ads.example:80" =
      .panicked := by
  decide

/-! ### Lemmas and claim theorem for the sniff loop (C1) -/

theorem sniffOutcome_cases (o : SniffOutcome) :
    (∃ r, o = .result r) ∨ o = .ctxErr ∨ o = .timeout ∨
      o = .unknownContentErr := by
  cases o with
  | result r => exact .inl ⟨r, rfl⟩
  | ctxErr => exact .inr (.inl rfl)
  | timeout => exact .inr (.inr (.inl rfl))
  | unknownContentErr => exact .inr (.inr (.inr rfl))

theorem snifferLoop_inv (k : Nat) :
    ∀ (e : SniffEnv) (r : CachedReader) (a : Nat), 3 - a ≤ k →
      (snifferLoop e r a).2.1 ≤ 2 - a ∧
      (snifferLoop e r a).2.2 ≤ (snifferLoop e r a).2.1 ∧
      ((snifferLoop e r a).1 = .timeout → 2 ≤ a + (snifferLoop e r a).2.1) := by
  induction k with
  | zero =>
    intro e r a ha
    unfold snifferLoop
    split
    · exact ⟨Nat.zero_le _, Nat.le_refl _, by intro h; simp at h⟩
    · rw [dif_pos (show 2 < a + 1 by omega)]
      exact ⟨Nat.zero_le _, Nat.le_refl _, fun _ => by omega⟩
  | succ k ih =>
    intro e r a ha
    unfold snifferLoop
    split
    · exact ⟨Nat.zero_le _, Nat.le_refl _, by intro h; simp at h⟩
    · split
      · rename_i h2
        exact ⟨Nat.zero_le _, Nat.le_refl _, fun _ => by omega⟩
      · rename_i h2
        have hrec := ih e (r.Cache (e.timedOut (a + 1))).1 (a + 1) (by omega)
        dsimp only
        split
        · split
          · exact ⟨by dsimp only; omega, by dsimp only; omega,
              by intro h; simp at h⟩
          · refine ⟨?_, ?_, ?_⟩ <;> dsimp only
            · have := hrec.1; omega
            · have := hrec.2.1; omega
            · intro h
              have := hrec.2.2 h
              omega
        · split
          · exact ⟨by dsimp only; omega, by dsimp only; omega,
              by intro h; simp at h⟩
          · exact ⟨by dsimp only; omega, by dsimp only; omega,
              by intro h; simp at h⟩
          · split
            · exact ⟨by dsimp only; omega, by dsimp only; omega,
                by intro h; simp at h⟩
            · refine ⟨?_, ?_, ?_⟩ <;> dsimp only
              · have := hrec.1; omega
              · have := hrec.2.1; omega
              · intro h
                have := hrec.2.2 h
                omega

/-- C1: the sniff loop terminates for every input (it is a total
function) after at most 2 `Cache` calls and at most one `Sniff` call
per `Cache` call, and it returns exactly one of `(result, nil)`,
`(nil, context error)`, `(nil, sniffing-timeout error)` — the latter
only after both Cache attempts were spent — or
`(nil, unknown-content error)`. -/
theorem c1_sniff_loop_bounded (e : SniffEnv) (r : CachedReader) :
    (sniffer e r).2.1 ≤ 2 ∧
    (sniffer e r).2.2 ≤ (sniffer e r).2.1 ∧
    ((∃ res, (sniffer e r).1 = .result res) ∨ (sniffer e r).1 = .ctxErr ∨
      (sniffer e r).1 = .timeout ∨
      (sniffer e r).1 = .unknownContentErr) ∧
    ((sniffer e r).1 = .timeout → (sniffer e r).2.1 = 2) := by
  have h := snifferLoop_inv 3 e r 0 (by omega)
  unfold sniffer
  refine ⟨by simpa using h.1, h.2.1, sniffOutcome_cases _, ?_⟩
  intro ht
  have h1 := h.1
  have h3 := h.2.2 ht
  omega

/-- C1 (witness): with a context that never cancels and an upstream that
never delivers bytes, the loop times out after exactly 2 Cache calls. -/
theorem c1_sniff_loop_bounded_witness :
    (sniffer ⟨fun _ => false, fun _ => false, fun _ _ => .noClue⟩
        ⟨[], []⟩).2.1 = 2 :=
  (c1_sniff_loop_bounded ⟨fun _ => false, fun _ => false, fun _ _ => .noClue⟩
      ⟨[], []⟩).2.2.2
    (by simp [sniffer, snifferLoop, CachedReader.Cache, bufSize])

/-! ### Claim theorems: routedDispatch detour strings (C7) -/

/-- C7 (counterexample): the claim ties `" -> "` to "the dispatched
handler is the one selected by the picked route", but `isPickRoute` is
set before the handler lookup and stays true when the route's outbound
tag has no handler.  Concretely: the router picks tag "X", no handler
"X" exists, the fallback/default handler "D" is dispatched — yet the
Detour field is "in -> D", not the "in >> D" the claim requires for a
fallback handler. -/
theorem c7_arrow_used_for_fallback_handler :
    routedDispatch
        ⟨false, true, some "X", fun _ => none, some ⟨"D"⟩, true, "in"⟩ =
      ⟨some ⟨"D"⟩, some "in -> D", false, true⟩ ∧
    (⟨false, true, some "X", fun _ => none, some ⟨"D"⟩, true,
        "in"⟩ : RouteEnv).defaultHandler = some ⟨"D"⟩ ∧
    "in -> D" ≠ "in >> D" := by
  refine ⟨by decide, rfl, by decide⟩

/-- C7 (amended): in every `routedDispatch` call that reaches a handler
with a non-empty tag and has an access message, the Detour field is
`inTag + " -> " + tag` (or `tag` alone when inTag is empty) exactly when
the router successfully picked a route (`isPickRoute`), and
`inTag + " >> " + tag` (or `tag`) exactly when it did not — where `tag`
is the tag of the handler actually dispatched (the route's handler if it
exists, otherwise the fallback/default handler), and `isPickRoute` holds
iff a router is present, route picking is not skipped, and `PickRoute`
succeeded. -/
theorem c7_detour_format (e : RouteEnv) (h : Handler)
    (hh : (routedDispatch e).handler = some h)
    (ht : ¬h.tag = "") (ha : e.accessMessage = true) :
    (routedDispatch e).detour =
      some (detourString e.inTag h.tag (routedDispatch e).isPickRoute) ∧
    (routedDispatch e).isPickRoute =
      (e.routerPresent && !e.skipRoutePick && e.pickRoute.isSome) := by
  rcases e with ⟨skip, rp, pick, gh, dh, am, itag⟩
  simp only at ha
  subst ha
  cases skip <;> cases rp <;> rcases pick with _ | outTag <;>
    simp_all only [routedDispatch, detourString, Bool.and_true, Bool.and_false,
      Bool.true_and, Bool.false_and, Bool.not_true, Bool.not_false,
      Option.isSome_none, Option.isSome_some, if_true, if_false, ite_not] <;>
    rcases hd : dh with _ | hdef <;> simp_all <;> split <;> simp_all

/-- C7 (witness for the amended claim): the router picks "X", handler
"X" exists ("O"), and the detour is "in -> O" with `isPickRoute`. -/
theorem c7_detour_format_witness :
    (routedDispatch
        ⟨false, true, some "X",
          fun t => if t = "X" then some ⟨"O"⟩ else none, none, true,
          "in"⟩).detour =
      some (detourString "in" "O"
        (routedDispatch
          ⟨false, true, some "X",
            fun t => if t = "X" then some ⟨"O"⟩ else none, none, true,
            "in"⟩).isPickRoute) ∧
    (routedDispatch
        ⟨false, true, some "X",
          fun t => if t = "X" then some ⟨"O"⟩ else none, none, true,
          "in"⟩).isPickRoute = (true && !false && (some "X").isSome) :=
  c7_detour_format _ ⟨"O"⟩ (by decide) (by decide) rfl

/-! ### Lemmas and claim theorems for Dispatch (C2, C3) -/

theorem getLink_reject (e : DispatchEnv) (si : SessionInbound) (u : MemoryUser)
    (hsi : e.sessionInbound = some si) (hu : si.user = some u)
    (hlen : 0 < u.email.length)
    (hrej : (e.getUserBucket si.tag u.email si.sourceIP).reject = true) :
    (getLink e).2.2 = ⟨true, true, true, true⟩ := by
  unfold getLink
  rw [hsi]
  dsimp only
  rw [hu]
  dsimp only
  rw [if_pos hlen]
  dsimp only
  rw [hrej]
  rw [if_pos rfl]

/-- C2: in every `Dispatch` call whose inbound session carries a user
with a non-empty email and which reaches the limiter (the rule check did
not already reject), if `GetUserBucket` reports `reject = true` then
both link writers are closed and both link readers are interrupted (all
four pipe endpoints), and `Dispatch` still returns the inbound link with
a nil error (`.dispatched`), so no error surfaces to the caller. -/
theorem c2_device_limit_teardown (e : DispatchEnv) (dest : String)
    (si : SessionInbound) (u : MemoryUser)
    (hsi : e.sessionInbound = some si) (hu : si.user = some u)
    (hlen : 0 < u.email.length)
    (hdet : e.detect si.tag dest u.email = false)
    (hrej : (e.getUserBucket si.tag u.email si.sourceIP).reject = true) :
    ∃ inL outL b,
      Dispatch e true dest = .dispatched inL outL ⟨true, true, true, true⟩ b := by
  have htd := getLink_reject e si u hsi hu hlen hrej
  unfold Dispatch
  simp only [Bool.not_true, Bool.false_eq_true, if_false]
  rw [hsi]
  dsimp only
  rw [hu]
  dsimp only
  rw [hdet]
  simp only [Bool.false_eq_true, if_false]
  split
  · exact ⟨(getLink e).1, (getLink e).2.1, false, by rw [htd]⟩
  · exact ⟨(getLink e).1, (getLink e).2.1, true, by rw [htd]⟩

/-- C2 (witness): a concrete rejected dispatch — user "u@x", limiter
answers `reject = true`; all four endpoints are torn down and the
outcome is still `.dispatched`. -/
theorem c2_device_limit_teardown_witness :
    ∃ inL outL b,
      Dispatch
          ⟨some ⟨"V2ray_443", some ⟨"u@x", 0⟩, "1.1.1.1"⟩,
            fun _ _ _ => false, fun _ _ _ => ⟨false, true⟩,
            fun _ => false, fun _ => false, fun _ => false, true, false⟩
          true "ads.example:80" =
        .dispatched inL outL ⟨true, true, true, true⟩ b :=
  c2_device_limit_teardown _ "ads.example:80"
    ⟨"V2ray_443", some ⟨"u@x", 0⟩, "1.1.1.1"⟩ ⟨"u@x", 0⟩
    rfl rfl (by decide) rfl rfl

/-- C3: for every `Dispatch` call with a valid destination (and a
session/user present, which line 223 requires to avoid the nil panic),
the result is the rejected-by-rule error exactly when
`Detect(tag, destination, email)` is true — in that case no link pair is
built and no background task is launched (the `.rejectedByRule` outcome
carries neither) — and every run ends in `.rejectedByRule` or
`.dispatched`, so rejected-by-rule is the only error returned to the
caller. -/
theorem c3_reject_by_rule (e : DispatchEnv) (dest : String)
    (si : SessionInbound) (u : MemoryUser)
    (hsi : e.sessionInbound = some si) (hu : si.user = some u) :
    (Dispatch e true dest = .rejectedByRule ↔
      e.detect si.tag dest u.email = true) ∧
    (Dispatch e true dest = .rejectedByRule ∨
      ∃ l1 l2 td b, Dispatch e true dest = .dispatched l1 l2 td b) := by
  unfold Dispatch
  simp only [Bool.not_true, Bool.false_eq_true, if_false]
  rw [hsi]
  dsimp only
  rw [hu]
  dsimp only
  cases hdet : e.detect si.tag dest u.email with
  | true =>
    rw [if_pos rfl]
    exact ⟨by simp, .inl rfl⟩
  | false =>
    simp only [Bool.false_eq_true, if_false]
    constructor
    · constructor
      · intro h
        split at h <;> simp at h
      · intro h
        simp at h
    · split
      · exact .inr ⟨_, _, _, _, rfl⟩
      · exact .inr ⟨_, _, _, _, rfl⟩

/-- C3 (witness): a concrete dispatch whose rule engine matches; the
equivalence and the outcome disjunction instantiate at it. -/
theorem c3_reject_by_rule_witness :
    (Dispatch
          ⟨some ⟨"V2ray_443", some ⟨"u@x", 0⟩, "1.1.1.1"⟩,
            fun _ _ _ => true, fun _ _ _ => ⟨false, false⟩,
            fun _ => false, fun _ => false, fun _ => false, true, false⟩
          true "ads.example:80" = .rejectedByRule ↔
      (fun _ _ _ => true) "V2ray_443" "ads.example:80" "u@x" = true) ∧
    (Dispatch
          ⟨some ⟨"V2ray_443", some ⟨"u@x", 0⟩, "1.1.1.1"⟩,
            fun _ _ _ => true, fun _ _ _ => ⟨false, false⟩,
            fun _ => false, fun _ => false, fun _ => false, true, false⟩
          true "ads.example:80" = .rejectedByRule ∨
      ∃ l1 l2 td b,
        Dispatch
            ⟨some ⟨"V2ray_443", some ⟨"u@x", 0⟩, "1.1.1.1"⟩,
              fun _ _ _ => true, fun _ _ _ => ⟨false, false⟩,
              fun _ => false, fun _ => false, fun _ => false, true, false⟩
            true "ads.example:80" = .dispatched l1 l2 td b) :=
  c3_reject_by_rule _ "ads.example:80"
    ⟨"V2ray_443", some ⟨"u@x", 0⟩, "1.1.1.1"⟩ ⟨"u@x", 0⟩ rfl rfl

/-! ### Lemmas and claim theorem for compareUserList (C4) -/

theorem mem_insertKey (m : List UserInfo) (a v : UserInfo) :
    v ∈ insertKey m a ↔ v ∈ m ∨ v = a := by
  unfold insertKey
  split
  · rename_i h
    constructor
    · exact .inl
    · rintro (hv | rfl)
      · exact hv
      · exact h
  · simp [List.mem_append]

theorem mem_foldl_insertKey (l : List UserInfo) :
    ∀ (acc : List UserInfo) (v : UserInfo),
      v ∈ l.foldl insertKey acc ↔ v ∈ acc ∨ v ∈ l := by
  induction l with
  | nil => simp
  | cons a l ih =>
    intro acc v
    simp only [List.foldl_cons, List.mem_cons]
    rw [ih, mem_insertKey]
    tauto

theorem unionPass_fst_mem (rest : List UserInfo) :
    ∀ (mall inter : List UserInfo) (v : UserInfo),
      v ∈ (unionPass mall inter rest).1 ↔ v ∈ mall ∨ v ∈ rest := by
  induction rest with
  | nil => simp [unionPass]
  | cons a rest ih =>
    intro mall inter v
    unfold unionPass
    split
    · rename_i ha
      rw [ih]
      simp only [List.mem_cons]
      constructor
      · rintro (h | h)
        · exact .inl h
        · exact .inr (.inr h)
      · rintro (h | rfl | h)
        · exact .inl h
        · exact .inl ha
        · exact .inr h
    · rename_i ha
      rw [ih]
      simp only [List.mem_append, List.mem_cons, List.mem_singleton]
      tauto

theorem unionPass_snd_mem (rest : List UserInfo) :
    ∀ (mall inter : List UserInfo), rest.Nodup →
      ∀ v, v ∈ (unionPass mall inter rest).2 ↔
        v ∈ inter ∨ (v ∈ rest ∧ v ∈ mall) := by
  induction rest with
  | nil => simp [unionPass]
  | cons a rest ih =>
    intro mall inter hnd v
    have hnd' : rest.Nodup := (List.nodup_cons.mp hnd).2
    have hna : a ∉ rest := (List.nodup_cons.mp hnd).1
    unfold unionPass
    split
    · rename_i ha
      rw [ih _ _ hnd']
      simp only [List.mem_append, List.mem_cons, List.not_mem_nil, or_false]
      constructor
      · rintro ((h | rfl) | ⟨h1, h2⟩)
        · exact .inl h
        · exact .inr ⟨.inl rfl, ha⟩
        · exact .inr ⟨.inr h1, h2⟩
      · rintro (h | ⟨rfl | h1, h2⟩)
        · exact .inl (.inl h)
        · exact .inl (.inr rfl)
        · exact .inr ⟨h1, h2⟩
    · rename_i ha
      rw [ih _ _ hnd']
      simp only [List.mem_append, List.mem_cons, List.not_mem_nil, or_false]
      constructor
      · rintro (h | ⟨h1, h2 | rfl⟩)
        · exact .inl h
        · exact .inr ⟨.inr h1, h2⟩
        · exact absurd h1 hna
      · rintro (h | ⟨rfl | h1, h2⟩)
        · exact .inl h
        · exact absurd h2 ha
        · exact .inr ⟨h1, .inl h2⟩

theorem compareUserList_mem (old new : List UserInfo) (hnew : new.Nodup)
    (v : UserInfo) :
    (v ∈ (compareUserList old new).1 ↔ v ∈ old ∧ v ∉ new) ∧
    (v ∈ (compareUserList old new).2 ↔ v ∈ new ∧ v ∉ old) := by
  unfold compareUserList
  dsimp only
  have hsrc : ∀ w : UserInfo, w ∈ old.foldl insertKey [] ↔ w ∈ old := by
    intro w
    rw [mem_foldl_insertKey]
    simp
  have hfst := unionPass_fst_mem new (old.foldl insertKey []) [] v
  have hsnd := unionPass_snd_mem new (old.foldl insertKey []) [] hnew v
  simp only [List.mem_filter, Bool.not_eq_true', decide_eq_false_iff_not,
    decide_eq_true_eq] at *
  rw [hfst, hsnd, hsrc] at *
  simp only [List.not_mem_nil, false_or] at *
  constructor
  · tauto
  · tauto

theorem c4_compare_user_list (old new : List UserInfo)
    (_hold : old.Nodup) (hnew : new.Nodup) (v : UserInfo) :
    ((v ∈ old ∨ v ∈ (compareUserList old new).2) ↔
      (v ∈ new ∨ v ∈ (compareUserList old new).1)) ∧
    ¬(v ∈ (compareUserList old new).2 ∧ v ∈ old) ∧
    ¬(v ∈ (compareUserList old new).1 ∧ v ∈ new) := by
  obtain ⟨hdel, hadd⟩ := compareUserList_mem old new hnew v
  rw [hdel, hadd]
  tauto

theorem c4_compare_user_list_witness :
    ([uA, uB].Nodup ∧ [uB, uC].Nodup) ∧
    ((uA ∈ [uA, uB] ∨ uA ∈ (compareUserList [uA, uB] [uB, uC]).2) ↔
      (uA ∈ [uB, uC] ∨ uA ∈ (compareUserList [uA, uB] [uB, uC]).1)) :=
  ⟨⟨by decide, by decide⟩,
    (c4_compare_user_list [uA, uB] [uB, uC] (by decide) (by decide) uA).1⟩

/-! ### Claim theorems: controller tick error isolation (C6) -/

/-- C6 (counterexample): the claim "state is left exactly as it was"
fails when the node info changed and the subsequent `GetUserList` call
errors: the tag swap, nodeInfo replacement and limiter deletion have
already happened by the time the tick returns the error. -/
theorem c6_tick_mutates_on_userlist_error :
    (nodeInfoMonitor ⟨nodeA, [uA], ["V2ray_443"], ["V2ray_443"]⟩
        ⟨.ok nodeB, .error "api down"⟩).2 = some "api down" ∧
    (nodeInfoMonitor ⟨nodeA, [uA], ["V2ray_443"], ["V2ray_443"]⟩
        ⟨.ok nodeB, .error "api down"⟩).1 ≠
      ⟨nodeA, [uA], ["V2ray_443"], ["V2ray_443"]⟩ := by
  exact ⟨by decide, by decide⟩

/-- C6 (amended): when `GetNodeInfo` fails the tick returns that error
with the controller state exactly unchanged; when `GetUserList` fails
the tick returns that error with the cached user list unchanged, and the
full state is unchanged provided the fetched node info equals the cached
one — otherwise the node-change mutations performed earlier in the same
tick (tag swap, cached nodeInfo, limiter inbound deletion) persist. -/
theorem c6_tick_error_isolation (s : ControllerState) (api : TickAPI)
    (msg : String) :
    (api.getNodeInfo = .error msg → nodeInfoMonitor s api = (s, some msg)) ∧
    (∀ n, api.getNodeInfo = .ok n → api.getUserList = .error msg →
      (nodeInfoMonitor s api).2 = some msg ∧
      (nodeInfoMonitor s api).1.userList = s.userList ∧
      (n = s.nodeInfo → nodeInfoMonitor s api = (s, some msg))) := by
  constructor
  · intro h
    simp [nodeInfoMonitor, h]
  · intro n hn hu
    simp only [nodeInfoMonitor, hn, hu]
    by_cases hch : s.nodeInfo = n
    · simp [hch]
    · have hdec : (!decide (s.nodeInfo = n)) = true := by
        simp [hch]
      rw [if_pos hdec]
      exact ⟨trivial, rfl, fun habs => absurd habs.symm hch⟩

/-- C6 (witness for the amended claim): a tick whose `GetNodeInfo` call
fails leaves the concrete state untouched and returns the error. -/
theorem c6_tick_error_isolation_witness :
    nodeInfoMonitor ⟨nodeA, [uA], ["V2ray_443"], ["V2ray_443"]⟩
        ⟨.error "down", .ok []⟩ =
      (⟨nodeA, [uA], ["V2ray_443"], ["V2ray_443"]⟩, some "down") :=
  (c6_tick_error_isolation _ _ "down").1 rfl

end XrayR
